import Mathlib

/-!
# Flange cost calculator — shallow embedding

A shallow embedding of `src/app.py` (a Streamlit flange cost calculator).
Python numeric values are modelled as exact rationals `ℚ`; Python strings as
`String` / `List Char`; JSON values as the inductive `JsonVal`; code that can
raise an uncaught exception returns `Except Unit _`.

Embedded functions (names follow the source):
* `calculate_billet_weight_from_section` (app.py lines 42–51)
* `get_cutting_waste_kg` (app.py lines 53–68)
* `create_safe_key` (app.py lines 70–71)
* `get_nested_value` (app.py lines 33–40) and the leaf check used at
  app.py lines 151–153 and 184–187
* the selection-change callback (app.py lines 123–127)
* the compound-label parsing (app.py lines 192–198)
* the Calculate Costs handler (app.py lines 264–346) as a pure function
-/

namespace FlangeCalc

/-! ## Python string helpers -/

/-- Python `str.split(sep)` for a single-character separator: splits at every
occurrence, keeping empty segments; always returns at least one segment. -/
def pySplit (sep : Char) : List Char → List (List Char)
  | [] => [[]]
  | c :: cs =>
    match pySplit sep cs with
    | [] => [[]]
    | g :: gs => if c = sep then [] :: g :: gs else (c :: g) :: gs

/-- Python `str.strip()`: remove leading and trailing whitespace. -/
def pyStrip (l : List Char) : List Char :=
  ((l.dropWhile Char.isWhitespace).reverse.dropWhile Char.isWhitespace).reverse

/-- Digits of a decimal string to a natural number. -/
def digitsToNat (l : List Char) : ℕ :=
  l.foldl (fun n c => 10 * n + (c.toNat - 48)) 0

/-- Python `float(s)` on a string, modelled for the plain decimal forms the
catalog uses: optional surrounding whitespace, an optional sign, then either
`digits`, `digits.digits?` or `.digits`. Exotic accepted forms of CPython
(exponents, `inf`/`nan`, digit-group underscores) are outside the model; on
every form the model accepts, CPython returns exactly the same value. -/
def pyFloat (l : List Char) : Option ℚ :=
  let s := pyStrip l
  let signAndRest : ℚ × List Char :=
    match s with
    | '+' :: r => (1, r)
    | '-' :: r => (-1, r)
    | r => (1, r)
  let sign := signAndRest.1
  let rest := signAndRest.2
  let intPart := rest.takeWhile Char.isDigit
  let afterInt := rest.dropWhile Char.isDigit
  match afterInt with
  | [] =>
    if intPart = [] then none
    else some (sign * digitsToNat intPart)
  | '.' :: frac =>
    if frac.all Char.isDigit ∧ (intPart ≠ [] ∨ frac ≠ []) then
      some (sign * ((digitsToNat intPart : ℚ) + (digitsToNat frac : ℚ) / (10 ^ frac.length)))
    else none
  | _ => none

/-! ## Billet mass estimator (app.py lines 42–51) -/

/-- `REFERENCE_BILLET_WIDTH_MM` (app.py line 11). -/
def REFERENCE_BILLET_WIDTH_MM : ℚ := 100

/-- `REFERENCE_BILLET_HEIGHT_MM` (app.py line 12). -/
def REFERENCE_BILLET_HEIGHT_MM : ℚ := 100

/-- `REFERENCE_BILLET_MASS_KG` (app.py line 13). -/
def REFERENCE_BILLET_MASS_KG : ℚ := 482

/-- `calculate_billet_weight_from_section` (app.py lines 42–51): lower-case the
section string, require an `x`, split on `x` into exactly two parts, parse both
as floats, and scale the reference billet mass by the cross-section area;
any failure yields `none` (Python `None`). -/
def calculate_billet_weight_from_section (s : String) : Option ℚ :=
  if s.data = [] ∨ 'x' ∉ s.data.map Char.toLower then none
  else
    let parts := pySplit 'x' (s.data.map Char.toLower)
    if parts.length ≠ 2 then none
    else
      match pyFloat (parts.getD 0 []), pyFloat (parts.getD 1 []) with
      | some w, some h =>
        if REFERENCE_BILLET_WIDTH_MM = 0 ∨ REFERENCE_BILLET_HEIGHT_MM = 0 then none
        else some ((w * h * REFERENCE_BILLET_MASS_KG) /
          (REFERENCE_BILLET_WIDTH_MM * REFERENCE_BILLET_HEIGHT_MM))
      | _, _ => none

/-! ## Cutting waste estimator (app.py lines 53–68) -/

/-- Python `s.replace("_inch", "")`: remove every occurrence of `_inch`,
scanning left to right without rescanning produced text. -/
def removeInch : List Char → List Char
  | [] => []
  | '_' :: 'i' :: 'n' :: 'c' :: 'h' :: rest => removeInch rest
  | c :: cs => c :: removeInch cs

/-- Outcome of the `try` block of `get_cutting_waste_kg`: a parsed value, a
caught exception (`ValueError`/`IndexError`/`TypeError`, handled by the
`except` clause), or an uncaught `ZeroDivisionError` from `/` on a zero
denominator. -/
inductive SizeParse where
  | val (q : ℚ)
  | caught
  | zeroDiv
deriving DecidableEq, Repr

/-- The `try` block of `get_cutting_waste_kg` (app.py lines 59–62), acting on
the `_`-split parts: one part is a plain float; two parts are
`float(p0) / float(p1)`; three parts are `float(p0) + float(p1) / float(p2)`;
four or more fall back to `float(p0)`. Python evaluates the `float` calls left
to right, so a parse failure surfaces before a division by zero. -/
def parseSizeParts : List (List Char) → SizeParse
  | [a] =>
    match pyFloat a with
    | some v => .val v
    | none => .caught
  | [a, b] =>
    match pyFloat a with
    | none => .caught
    | some x =>
      match pyFloat b with
      | none => .caught
      | some y => if y = 0 then .zeroDiv else .val (x / y)
  | [a, b, c] =>
    match pyFloat a with
    | none => .caught
    | some x =>
      match pyFloat b with
      | none => .caught
      | some y =>
        match pyFloat c with
        | none => .caught
        | some z => if z = 0 then .zeroDiv else .val (x + y / z)
  | a :: _ :: _ :: _ :: _ =>
    match pyFloat a with
    | some v => .val v
    | none => .caught
  | [] => .caught

/-- The band table at the end of `get_cutting_waste_kg` (app.py lines 64–68). -/
def wasteBand (v : ℚ) : ℚ :=
  if v ≤ 0 then 0.2
  else if v ≤ 4 then 0.2
  else if v ≤ 8 then 0.5
  else if v ≤ 12 then 1.0
  else 1.0

/-- `get_cutting_waste_kg` (app.py lines 53–68). An empty string returns
0.2 immediately; otherwise `_inch` is removed, the token stripped and split on
`_`, and the parts parsed by `parseSizeParts`. A caught parse failure defaults
the numeric value to 0; an uncaught `ZeroDivisionError` propagates
(`Except.error ()`). -/
def get_cutting_waste_kg (s : String) : Except Unit ℚ :=
  if s = "" then .ok 0.2
  else
    let cleaned := pyStrip (removeInch s.data)
    match parseSizeParts (pySplit '_' cleaned) with
    | .zeroDiv => .error ()
    | .val v => .ok (wasteBand v)
    | .caught => .ok (wasteBand 0)

/-! ## Safe keys and compound labels (app.py lines 70–71 and 192–198) -/

/-- Python `\w` on the ASCII range: letters, digits and underscore. -/
def isWordChar (c : Char) : Bool :=
  c.isAlpha || c.isDigit || c = '_'

/-- Core of `re.sub(r'\W+', '_', s)`: copy word characters and replace every
maximal run of non-word characters by a single `_`. The boolean argument
records whether the previous character was part of a non-word run. -/
def collapseNonWord : Bool → List Char → List Char
  | _, [] => []
  | prevNW, c :: cs =>
    if isWordChar c then c :: collapseNonWord false cs
    else if prevNW then collapseNonWord true cs
    else '_' :: collapseNonWord true cs

/-- `create_safe_key` (app.py lines 70–71): `re.sub(r'\W+', '_', s)`. -/
def create_safe_key (s : String) : String :=
  ⟨collapseNonWord false s.data⟩

/-- The session-state price key for an extra-flange description
(`f"price_extra_{create_safe_key(desc)}"`, app.py lines 204 and 223). -/
def price_key (desc : String) : String :=
  "price_extra_" ++ create_safe_key desc

/-- The compound-label parsing of app.py lines 192–198: split the terminal
path segment at `+` delimiters and strip each part (the source splits on
`re.split(r'\s*\+\s*', ...)` and then strips every part, which is the same as
splitting on `+` and stripping every part, since `\s*` only absorbs whitespace
adjacent to the `+`). Returns the stripped primary description and the
stripped, non-empty extra-flange descriptions. -/
def parse_compound_label (s : String) : String × List String :=
  let parts := (pySplit '+' s.data).map pyStrip
  (⟨parts.headD []⟩, (parts.tail.filter (fun p => p ≠ [])).map (fun p => ⟨p⟩))

/-! ## Catalog values and leaf recognition -/

/-- A JSON value of the catalog file, as loaded by `json.load`. Objects keep
their fields as an association list. -/
inductive JsonVal where
  | num (q : ℚ)
  | str (s : String)
  | bool (b : Bool)
  | null
  | arr (xs : List JsonVal)
  | obj (fields : List (String × JsonVal))

/-- First-match key lookup in a JSON object's fields (Python `dict` access;
keys in a parsed JSON object are unique). -/
def lookupKey (fields : List (String × JsonVal)) (k : String) : Option JsonVal :=
  match fields with
  | [] => none
  | (k', v) :: rest => if k' = k then some v else lookupKey rest k

/-- Python `k in d` for a JSON object's fields. -/
def hasKey (fields : List (String × JsonVal)) (k : String) : Bool :=
  (lookupKey fields k).isSome

/-- The leaf check of app.py lines 151–153 and 186: the node is a dict and
contains both the `FW` and the `CW` key. The values under the keys are not
inspected. -/
def is_costable_leaf : JsonVal → Bool
  | .obj fields => hasKey fields "FW" && hasKey fields "CW"
  | _ => false

/-- Whether a JSON object carries key `k` with a numeric value (used to state
what the spec asks of a leaf; the code never performs this check at
recognition time). -/
def hasNumericKey (v : JsonVal) (k : String) : Bool :=
  match v with
  | .obj fields =>
    match lookupKey fields k with
    | some (.num _) => true
    | _ => false
  | _ => false

/-- `get_nested_value` (app.py lines 33–40): follow each key in order; a
missing key or a non-dict node yields Python `None`. -/
def get_nested_value : JsonVal → List String → Option JsonVal
  | v, [] => some v
  | .obj fields, k :: rest =>
    match lookupKey fields k with
    | some v => get_nested_value v rest
    | none => none
  | _, _ :: _ => none

/-- The derivation of `selected_flange_data` (app.py lines 183–187): with a
non-empty active selection path, resolve it through `get_nested_value` and
accept the node only when the leaf check passes. -/
def selected_flange_data (db : JsonVal) (path : List String) : Option JsonVal :=
  match path with
  | [] => none
  | _ :: _ =>
    match get_nested_value db path with
    | some v => if is_costable_leaf v then some v else none
    | none => none

/-! ## Selection-change callback (app.py lines 123–127) -/

/-- The reset loop of the callback: keep positions `0..i` and overwrite every
deeper position with the empty string (`for k in range(level_idx + 1, ...)`).
-/
def clearDeeper : ℕ → List String → List String
  | _, [] => []
  | 0, x :: xs => x :: xs.map (fun _ => "")
  | n + 1, x :: xs => x :: clearDeeper n xs

/-- `selection_on_change_callback` (app.py lines 123–127) acting on the
`selections` list: write the widget's new value at depth `i`, then clear every
selection at depth strictly greater than `i`. -/
def selection_on_change_callback (sel : List String) (i : ℕ) (v : String) :
    List String :=
  clearDeeper i (sel.set i v)

/-! ## FT resolution and the Calculate Costs handler -/

/-- The FT value a leaf provides, as the Python code sees it: a number, a
present but non-numeric value (for `isinstance(ft, (int, float))` failures,
e.g. a string or `null`), or absent (`dict.get` returned `None`). -/
inductive FTVal where
  | num (q : ℚ)
  | nonNumeric
  | absent
deriving DecidableEq, Repr

/-- The resolution of `ft_flange_final` (app.py lines 252–262): a numeric FT
from the data is used as is; otherwise, when the manual checkbox is set, the
manual input replaces it, and when it is not, the raw non-numeric/absent value
flows on. -/
def ft_flange_final (ftData : FTVal) (manualChecked : Bool) (manualVal : ℚ) :
    FTVal :=
  match ftData with
  | .num q => .num q
  | other => if manualChecked then .num manualVal else other

/-- `GST_RATE` (app.py line 14). -/
def GST_RATE : ℚ := 0.19

/-- The fixed `scrap_loss_factor` of app.py line 307. -/
def scrap_loss_factor : ℚ := 0.9

/-- The user-entered cost rates read by the Calculate Costs handler
(app.py lines 265–271). -/
structure CostInputs where
  steelPerKg : ℚ
  scrapPerKg : ℚ
  machiningPerKg : ℚ
  forgingPerKg : ℚ
  transportPerKg : ℚ
  profitMarginPercent : ℚ
  numPieces : ℕ
deriving DecidableEq, Repr

/-- Every intermediate value the Calculate Costs handler computes and
displays (app.py lines 292–346), plus the transport-basis label and whether
the scrap branch ran (app.py line 317 reports "not calculated" otherwise). -/
structure CostBreakdown where
  steel_cost_per_piece : ℚ
  machining_cost_per_piece : ℚ
  forging_cost_per_piece : ℚ
  transportation_weight_basis_kg : ℚ
  transportation_basis_label : String
  transportation_cost_per_piece : ℚ
  scrap_computed : Bool
  scrap_generated_kg_gross : ℚ
  recoverable_scrap_kg : ℚ
  scrap_value_per_piece : ℚ
  total_value_from_extra_flanges : ℚ
  total_cost_per_piece_before_profit : ℚ
  profit_amount_per_piece : ℚ
  cost_with_profit_per_piece : ℚ
  gst_amount_per_piece : ℚ
  final_selling_price_per_piece : ℚ
  total_order_value : ℚ
deriving DecidableEq, Repr

/-- The Calculate Costs handler (app.py lines 292–346) as a pure function of
the leaf weights `cw`/`fw`, the resolved `ft_flange_final`, the entered
extra-flange selling prices and the cost inputs. -/
def calculate_costs (cw fw : ℚ) (ftFinal : FTVal) (extraPrices : List ℚ)
    (inp : CostInputs) : CostBreakdown :=
  let steel_cost := cw * inp.steelPerKg
  let machining_cost := inp.machiningPerKg * cw
  let forging_cost := inp.forgingPerKg * cw
  let basisAndLabel : ℚ × String :=
    match ftFinal with
    | .num q => (q, "(based on FT)")
    | _ => (cw, "(based on CW as FT not available/provided)")
  let transport_cost := inp.transportPerKg * basisAndLabel.1
  let scrapPair : Bool × ℚ :=
    match ftFinal with
    | .num ft => (true, if fw < ft then 0 else fw - ft)
    | _ => (false, 0)
  let scrap_computed := scrapPair.1
  let gross := scrapPair.2
  let recoverable := if scrap_computed then gross * scrap_loss_factor else 0
  let scrap_value := if scrap_computed then recoverable * inp.scrapPerKg else 0
  let extra_total := extraPrices.sum
  let total_before := steel_cost + machining_cost + forging_cost +
    transport_cost - scrap_value - extra_total
  let profit := total_before * (inp.profitMarginPercent / 100)
  let cost_with_profit := total_before + profit
  let gst := cost_with_profit * GST_RATE
  let final_price := cost_with_profit + gst
  let total_order := final_price * (inp.numPieces : ℚ)
  { steel_cost_per_piece := steel_cost
    machining_cost_per_piece := machining_cost
    forging_cost_per_piece := forging_cost
    transportation_weight_basis_kg := basisAndLabel.1
    transportation_basis_label := basisAndLabel.2
    transportation_cost_per_piece := transport_cost
    scrap_computed := scrap_computed
    scrap_generated_kg_gross := gross
    recoverable_scrap_kg := recoverable
    scrap_value_per_piece := scrap_value
    total_value_from_extra_flanges := extra_total
    total_cost_per_piece_before_profit := total_before
    profit_amount_per_piece := profit
    cost_with_profit_per_piece := cost_with_profit
    gst_amount_per_piece := gst
    final_selling_price_per_piece := final_price
    total_order_value := total_order }

/-- Rounding to two decimals as the result display's `:.2f` format does for
values that are not exact half-cent ties (the only case where round-half-up,
used here, and the display's round-half-even could differ). -/
def round2 (q : ℚ) : ℚ :=
  ((⌊q * 100 + 1 / 2⌋ : ℤ) : ℚ) / 100

/-! ## Lemmas about the selection-change callback -/

lemma clearDeeper_getElem? : ∀ (i k : ℕ) (l : List String),
    (clearDeeper i l)[k]? =
      if k ≤ i then l[k]? else (l[k]?).map (fun _ => "")
  | i, k, [] => by cases i <;> simp [clearDeeper]
  | 0, 0, x :: xs => by simp [clearDeeper]
  | 0, k + 1, x :: xs => by
    simp [clearDeeper, -List.map_const, -List.map_const']
  | i + 1, 0, x :: xs => by simp [clearDeeper]
  | i + 1, k + 1, x :: xs => by
    simpa [clearDeeper, Nat.succ_le_succ_iff] using clearDeeper_getElem? i k xs

/-! ## Lemmas about pySplit and pyFloat -/

lemma pySplit_ne_nil (sep : Char) (l : List Char) : pySplit sep l ≠ [] := by
  cases l with
  | nil => simp [pySplit]
  | cons c cs =>
    simp only [pySplit]
    cases pySplit sep cs with
    | nil => simp
    | cons g gs => by_cases hc : c = sep <;> simp [hc]

lemma pySplit_of_not_mem {sep : Char} : ∀ {l : List Char}, sep ∉ l → pySplit sep l = [l]
  | [], _ => rfl
  | c :: cs, h => by
    have hc : ¬ c = sep := fun e => h (e ▸ List.mem_cons_self c cs)
    have hcs : sep ∉ cs := fun m => h (List.mem_cons_of_mem _ m)
    simp only [pySplit, pySplit_of_not_mem hcs]
    simp [hc]

lemma pySplit_append_sep (sep : Char) :
    ∀ (u v : List Char), sep ∉ u → pySplit sep (u ++ sep :: v) = u :: pySplit sep v
  | [], v, _ => by
    obtain ⟨g, gs, hgs⟩ : ∃ g gs, pySplit sep v = g :: gs := by
      cases h : pySplit sep v with
      | nil => exact absurd h (pySplit_ne_nil sep v)
      | cons g gs => exact ⟨g, gs, rfl⟩
    rw [List.nil_append]
    show (match pySplit sep v with
      | [] => [[]]
      | g :: gs => if sep = sep then [] :: g :: gs else (sep :: g) :: gs) =
        [] :: pySplit sep v
    rw [hgs]
    show (if sep = sep then [] :: g :: gs else (sep :: g) :: gs) = [] :: g :: gs
    rw [if_pos rfl]
  | c :: u, v, h => by
    have hc : ¬ c = sep := fun e => h (e ▸ List.mem_cons_self c u)
    have hu : sep ∉ u := fun m => h (List.mem_cons_of_mem _ m)
    rw [List.cons_append]
    show (match pySplit sep (u ++ sep :: v) with
      | [] => [[]]
      | g :: gs => if c = sep then [] :: g :: gs else (c :: g) :: gs) =
        (c :: u) :: pySplit sep v
    rw [pySplit_append_sep sep u v hu]
    show (if c = sep then [] :: u :: pySplit sep v else (c :: u) :: pySplit sep v) =
      (c :: u) :: pySplit sep v
    rw [if_neg hc]

lemma pyFloat_one : pyFloat ['1'] = some 1 := by
  rw [show pyFloat ['1'] = some ((1 : ℚ) * ((digitsToNat ['1'] : ℕ) : ℚ)) from rfl,
    show digitsToNat ['1'] = 1 from rfl]
  norm_num

lemma pyFloat_zero : pyFloat ['0'] = some 0 := by
  rw [show pyFloat ['0'] = some ((1 : ℚ) * ((digitsToNat ['0'] : ℕ) : ℚ)) from rfl,
    show digitsToNat ['0'] = 0 from rfl]
  norm_num

lemma pyFloat_five : pyFloat ['5'] = some 5 := by
  rw [show pyFloat ['5'] = some ((1 : ℚ) * ((digitsToNat ['5'] : ℕ) : ℚ)) from rfl,
    show digitsToNat ['5'] = 5 from rfl]
  norm_num

lemma pyFloat_twentyfour : pyFloat ['2', '4'] = some 24 := by
  rw [show pyFloat ['2', '4'] = some ((1 : ℚ) * ((digitsToNat ['2', '4'] : ℕ) : ℚ)) from rfl,
    show digitsToNat ['2', '4'] = 24 from rfl]
  norm_num

lemma pyFloat_hundred : pyFloat ['1', '0', '0'] = some 100 := by
  rw [show pyFloat ['1', '0', '0'] = some ((1 : ℚ) * ((digitsToNat ['1', '0', '0'] : ℕ) : ℚ)) from rfl,
    show digitsToNat ['1', '0', '0'] = 100 from rfl]
  norm_num

lemma pyFloat_minus_fifty : pyFloat ['-', '5', '0'] = some (-50) := by
  rw [show pyFloat ['-', '5', '0'] = some ((-1 : ℚ) * ((digitsToNat ['5', '0'] : ℕ) : ℚ)) from rfl,
    show digitsToNat ['5', '0'] = 50 from rfl]
  norm_num

/-- The two-part case of the size parser: with both parts parsing, the result
divides, raising `ZeroDivisionError` on a zero denominator. -/
lemma parseSizeParts_pair (a b : List Char) (x y : ℚ)
    (ha : pyFloat a = some x) (hb : pyFloat b = some y) :
    parseSizeParts [a, b] = if y = 0 then SizeParse.zeroDiv else SizeParse.val (x / y) := by
  show (match pyFloat a with
    | none => SizeParse.caught
    | some x' =>
      match pyFloat b with
      | none => SizeParse.caught
      | some y' => if y' = 0 then SizeParse.zeroDiv else SizeParse.val (x' / y')) = _
  rw [ha, hb]

/-- On the token "24" the size parser yields the value 24. -/
lemma parseSizeParts_token_24 :
    parseSizeParts (pySplit '_' (pyStrip (removeInch "24".data))) = SizeParse.val 24 := by
  rw [show pySplit '_' (pyStrip (removeInch "24".data)) = [['2', '4']] from rfl]
  show (match pyFloat ['2', '4'] with
    | some v => SizeParse.val v
    | none => SizeParse.caught) = _
  rw [pyFloat_twentyfour]

/-- The two-part billet computation once the lowered string splits as
`[u.map toLower, v.map toLower]` with both parts parsing as floats. -/
lemma billet_of_two_parts (u v : List Char) (w h : ℚ)
    (hu : 'x' ∉ u.map Char.toLower) (hv : 'x' ∉ v.map Char.toLower)
    (hw : pyFloat (u.map Char.toLower) = some w)
    (hh : pyFloat (v.map Char.toLower) = some h) :
    calculate_billet_weight_from_section ⟨u ++ 'x' :: v⟩ = some (w * h * 482 / 10000) := by
  have hlow : (u ++ 'x' :: v).map Char.toLower =
      u.map Char.toLower ++ 'x' :: v.map Char.toLower := by
    rw [List.map_append, List.map_cons, show Char.toLower 'x' = 'x' from rfl]
  have hmem : 'x' ∈ (u ++ 'x' :: v).map Char.toLower := by
    rw [hlow]; exact List.mem_append_right _ (List.mem_cons_self _ _)
  simp only [calculate_billet_weight_from_section,
    show (String.mk (u ++ 'x' :: v)).data = u ++ 'x' :: v from rfl]
  rw [if_neg (by simp [hmem])]
  rw [hlow, pySplit_append_sep 'x' _ _ hu, pySplit_of_not_mem hv]
  rw [if_neg (by simp)]
  rw [show ([u.map Char.toLower, v.map Char.toLower].getD 0 []) = u.map Char.toLower from rfl,
    show ([u.map Char.toLower, v.map Char.toLower].getD 1 []) = v.map Char.toLower from rfl]
  rw [hw, hh]
  show (if REFERENCE_BILLET_WIDTH_MM = 0 ∨ REFERENCE_BILLET_HEIGHT_MM = 0 then none
    else some ((w * h * REFERENCE_BILLET_MASS_KG) /
      (REFERENCE_BILLET_WIDTH_MM * REFERENCE_BILLET_HEIGHT_MM))) =
    some (w * h * 482 / 10000)
  rw [if_neg (by norm_num [REFERENCE_BILLET_WIDTH_MM, REFERENCE_BILLET_HEIGHT_MM])]
  norm_num [REFERENCE_BILLET_WIDTH_MM, REFERENCE_BILLET_HEIGHT_MM, REFERENCE_BILLET_MASS_KG]

/-! ## Claim theorems -/

/-- C1: the Calculate Costs handler follows the exact formula chain of spec
section 4.4 (steel, machining, forging, transport, total before profit,
profit, cost with profit, 19% tax, final unit price, total order value), and
on the spec's end-to-end example (CW=50, FW=55, FT=52, steel 100, scrap 20,
machining 10, forging 15, transport 5, profit 10%, 2 pieces) it yields
steelCost 5000, machiningCost 500, forgingCost 750, transportCost 260,
scrapValue 54, totalCostBeforeProfit 6456, costWithProfit 7101.6,
tax 1349.304, finalUnitPrice exactly 8450.904 — displayed at two decimals
as 8450.90 — and totalOrderValue 16901.808. -/
theorem C1_cost_formula_chain :
    (∀ (cw fw : ℚ) (ftFinal : FTVal) (extraPrices : List ℚ) (inp : CostInputs),
      (calculate_costs cw fw ftFinal extraPrices inp).steel_cost_per_piece =
          cw * inp.steelPerKg ∧
      (calculate_costs cw fw ftFinal extraPrices inp).machining_cost_per_piece =
          inp.machiningPerKg * cw ∧
      (calculate_costs cw fw ftFinal extraPrices inp).forging_cost_per_piece =
          inp.forgingPerKg * cw ∧
      (calculate_costs cw fw ftFinal extraPrices inp).transportation_cost_per_piece =
          inp.transportPerKg *
            (calculate_costs cw fw ftFinal extraPrices inp).transportation_weight_basis_kg ∧
      (calculate_costs cw fw ftFinal extraPrices inp).total_cost_per_piece_before_profit =
          (calculate_costs cw fw ftFinal extraPrices inp).steel_cost_per_piece +
            (calculate_costs cw fw ftFinal extraPrices inp).machining_cost_per_piece +
            (calculate_costs cw fw ftFinal extraPrices inp).forging_cost_per_piece +
            (calculate_costs cw fw ftFinal extraPrices inp).transportation_cost_per_piece -
            (calculate_costs cw fw ftFinal extraPrices inp).scrap_value_per_piece -
            (calculate_costs cw fw ftFinal extraPrices inp).total_value_from_extra_flanges ∧
      (calculate_costs cw fw ftFinal extraPrices inp).profit_amount_per_piece =
          (calculate_costs cw fw ftFinal extraPrices inp).total_cost_per_piece_before_profit *
            (inp.profitMarginPercent / 100) ∧
      (calculate_costs cw fw ftFinal extraPrices inp).cost_with_profit_per_piece =
          (calculate_costs cw fw ftFinal extraPrices inp).total_cost_per_piece_before_profit +
            (calculate_costs cw fw ftFinal extraPrices inp).profit_amount_per_piece ∧
      (calculate_costs cw fw ftFinal extraPrices inp).gst_amount_per_piece =
          (calculate_costs cw fw ftFinal extraPrices inp).cost_with_profit_per_piece * 0.19 ∧
      (calculate_costs cw fw ftFinal extraPrices inp).final_selling_price_per_piece =
          (calculate_costs cw fw ftFinal extraPrices inp).cost_with_profit_per_piece +
            (calculate_costs cw fw ftFinal extraPrices inp).gst_amount_per_piece ∧
      (calculate_costs cw fw ftFinal extraPrices inp).total_order_value =
          (calculate_costs cw fw ftFinal extraPrices inp).final_selling_price_per_piece *
            (inp.numPieces : ℚ)) ∧
    ((calculate_costs 50 55 (FTVal.num 52) [] ⟨100, 20, 10, 15, 5, 10, 2⟩).steel_cost_per_piece
          = 5000 ∧
      (calculate_costs 50 55 (FTVal.num 52) [] ⟨100, 20, 10, 15, 5, 10, 2⟩).machining_cost_per_piece
          = 500 ∧
      (calculate_costs 50 55 (FTVal.num 52) [] ⟨100, 20, 10, 15, 5, 10, 2⟩).forging_cost_per_piece
          = 750 ∧
      (calculate_costs 50 55 (FTVal.num 52) [] ⟨100, 20, 10, 15, 5, 10, 2⟩).transportation_cost_per_piece
          = 260 ∧
      (calculate_costs 50 55 (FTVal.num 52) [] ⟨100, 20, 10, 15, 5, 10, 2⟩).scrap_value_per_piece
          = 54 ∧
      (calculate_costs 50 55 (FTVal.num 52) [] ⟨100, 20, 10, 15, 5, 10, 2⟩).total_cost_per_piece_before_profit
          = 6456 ∧
      (calculate_costs 50 55 (FTVal.num 52) [] ⟨100, 20, 10, 15, 5, 10, 2⟩).cost_with_profit_per_piece
          = 7101.6 ∧
      (calculate_costs 50 55 (FTVal.num 52) [] ⟨100, 20, 10, 15, 5, 10, 2⟩).gst_amount_per_piece
          = 1349.304 ∧
      (calculate_costs 50 55 (FTVal.num 52) [] ⟨100, 20, 10, 15, 5, 10, 2⟩).final_selling_price_per_piece
          = 8450.904 ∧
      round2 ((calculate_costs 50 55 (FTVal.num 52) [] ⟨100, 20, 10, 15, 5, 10, 2⟩).final_selling_price_per_piece)
          = 8450.90 ∧
      (calculate_costs 50 55 (FTVal.num 52) [] ⟨100, 20, 10, 15, 5, 10, 2⟩).total_order_value
          = 16901.808) := by
  constructor
  · intro cw fw ftFinal extraPrices inp
    exact ⟨rfl, rfl, rfl, rfl, rfl, rfl, rfl, rfl, rfl, rfl⟩
  · norm_num [calculate_costs, GST_RATE, scrap_loss_factor, round2, Int.floor_eq_iff]

/-- C8: `totalCostBeforeProfit` is never clamped: whenever it is negative, the
profit, cost-with-profit, tax, final-price and total-order formulas still
apply unchanged, and on the concrete inputs CW=10, steel 5, machining 0,
forging 0, transport 0, no FT (scrap 0), extra credit 100, profit 10% the
handler yields totalCostBeforeProfit −50, profit −5, costWithProfit −55,
tax −10.45 and finalUnitPrice −65.45. -/
theorem C8_negative_total_not_clamped :
    (∀ (cw fw : ℚ) (ftFinal : FTVal) (extraPrices : List ℚ) (inp : CostInputs),
      (calculate_costs cw fw ftFinal extraPrices inp).total_cost_per_piece_before_profit < 0 →
      (calculate_costs cw fw ftFinal extraPrices inp).profit_amount_per_piece =
          (calculate_costs cw fw ftFinal extraPrices inp).total_cost_per_piece_before_profit *
            (inp.profitMarginPercent / 100) ∧
      (calculate_costs cw fw ftFinal extraPrices inp).cost_with_profit_per_piece =
          (calculate_costs cw fw ftFinal extraPrices inp).total_cost_per_piece_before_profit +
            (calculate_costs cw fw ftFinal extraPrices inp).profit_amount_per_piece ∧
      (calculate_costs cw fw ftFinal extraPrices inp).gst_amount_per_piece =
          (calculate_costs cw fw ftFinal extraPrices inp).cost_with_profit_per_piece * 0.19 ∧
      (calculate_costs cw fw ftFinal extraPrices inp).final_selling_price_per_piece =
          (calculate_costs cw fw ftFinal extraPrices inp).cost_with_profit_per_piece +
            (calculate_costs cw fw ftFinal extraPrices inp).gst_amount_per_piece ∧
      (calculate_costs cw fw ftFinal extraPrices inp).total_order_value =
          (calculate_costs cw fw ftFinal extraPrices inp).final_selling_price_per_piece *
            (inp.numPieces : ℚ)) ∧
    ((calculate_costs 10 10 FTVal.absent [100] ⟨5, 0, 0, 0, 0, 10, 1⟩).total_cost_per_piece_before_profit
          = -50 ∧
      (calculate_costs 10 10 FTVal.absent [100] ⟨5, 0, 0, 0, 0, 10, 1⟩).profit_amount_per_piece
          = -5 ∧
      (calculate_costs 10 10 FTVal.absent [100] ⟨5, 0, 0, 0, 0, 10, 1⟩).cost_with_profit_per_piece
          = -55 ∧
      (calculate_costs 10 10 FTVal.absent [100] ⟨5, 0, 0, 0, 0, 10, 1⟩).gst_amount_per_piece
          = -10.45 ∧
      (calculate_costs 10 10 FTVal.absent [100] ⟨5, 0, 0, 0, 0, 10, 1⟩).final_selling_price_per_piece
          = -65.45) := by
  constructor
  · intro cw fw ftFinal extraPrices inp _h
    exact ⟨rfl, rfl, rfl, rfl, rfl⟩
  · norm_num [calculate_costs, GST_RATE, scrap_loss_factor]

/-- C7: the transport cost is `transportPerKg * FT` exactly when the resolved
FT (numeric from the data, or the manual override when the data value is
absent/non-numeric and the checkbox is set) is numeric, and
`transportPerKg * CW` otherwise, with the used basis flagged in the label
shown next to the metric. -/
theorem C7_transport_basis (cw fw manualVal : ℚ) (ftData : FTVal)
    (manualChecked : Bool) (extraPrices : List ℚ) (inp : CostInputs) :
    (∀ q, ft_flange_final ftData manualChecked manualVal = FTVal.num q →
      (calculate_costs cw fw (ft_flange_final ftData manualChecked manualVal)
            extraPrices inp).transportation_cost_per_piece = inp.transportPerKg * q ∧
      (calculate_costs cw fw (ft_flange_final ftData manualChecked manualVal)
            extraPrices inp).transportation_basis_label = "(based on FT)") ∧
    ((∀ q, ft_flange_final ftData manualChecked manualVal ≠ FTVal.num q) →
      (calculate_costs cw fw (ft_flange_final ftData manualChecked manualVal)
            extraPrices inp).transportation_cost_per_piece = inp.transportPerKg * cw ∧
      (calculate_costs cw fw (ft_flange_final ftData manualChecked manualVal)
            extraPrices inp).transportation_basis_label =
          "(based on CW as FT not available/provided)") ∧
    (∀ q, ftData = FTVal.num q →
      ft_flange_final ftData manualChecked manualVal = FTVal.num q) ∧
    ((∀ q, ftData ≠ FTVal.num q) → manualChecked = true →
      ft_flange_final ftData manualChecked manualVal = FTVal.num manualVal) := by
  cases ftData <;> cases manualChecked <;>
    refine ⟨?_, ?_, ?_, ?_⟩ <;>
      simp [ft_flange_final, calculate_costs]

/-- C7 witness: concrete instantiations of the transport basis — a numeric
data FT of 52 gives 5 * 52 = 260, a manual override of 40 (FT absent, checkbox
set) gives 5 * 40 = 200, and a non-numeric FT without override falls back to
CW = 10, giving 5 * 10 = 50, flagged as CW-based. -/
theorem C7_transport_basis_witness :
    (calculate_costs 10 12 (ft_flange_final (FTVal.num 52) false 0) []
        ⟨1, 1, 1, 1, 5, 10, 1⟩).transportation_cost_per_piece = 260 ∧
    (calculate_costs 10 12 (ft_flange_final FTVal.absent true 40) []
        ⟨1, 1, 1, 1, 5, 10, 1⟩).transportation_cost_per_piece = 200 ∧
    (calculate_costs 10 12 (ft_flange_final FTVal.nonNumeric false 0) []
        ⟨1, 1, 1, 1, 5, 10, 1⟩).transportation_cost_per_piece = 50 ∧
    (calculate_costs 10 12 (ft_flange_final FTVal.nonNumeric false 0) []
        ⟨1, 1, 1, 1, 5, 10, 1⟩).transportation_basis_label =
      "(based on CW as FT not available/provided)" := by
  refine ⟨?_, ?_, ?_, ?_⟩
  · have h := (C7_transport_basis 10 12 0 (FTVal.num 52) false [] ⟨1, 1, 1, 1, 5, 10, 1⟩).1
      52 rfl
    rw [h.1]; norm_num
  · have h := (C7_transport_basis 10 12 40 FTVal.absent true [] ⟨1, 1, 1, 1, 5, 10, 1⟩).1
      40 rfl
    rw [h.1]; norm_num
  · have h := (C7_transport_basis 10 12 0 FTVal.nonNumeric false [] ⟨1, 1, 1, 1, 5, 10, 1⟩).2.1
      (fun q => by simp [ft_flange_final])
    rw [h.1]; norm_num
  · exact ((C7_transport_basis 10 12 0 FTVal.nonNumeric false [] ⟨1, 1, 1, 1, 5, 10, 1⟩).2.1
      (fun q => by simp [ft_flange_final])).2

/-- C4: changing the selection at depth `i` writes the new value at depth `i`,
clears (sets to the empty string) every selection at depth strictly greater
than `i` whatever it held before, and leaves the shallower selections
untouched. -/
theorem C4_selection_change_clears_deeper (sel : List String) (i : ℕ) (v : String)
    (hi : i < sel.length) :
    (selection_on_change_callback sel i v)[i]? = some v ∧
    (∀ k, i < k → k < sel.length →
      (selection_on_change_callback sel i v)[k]? = some "") ∧
    (∀ k, k < i → (selection_on_change_callback sel i v)[k]? = sel[k]?) := by
  refine ⟨?_, ?_, ?_⟩
  · rw [selection_on_change_callback, clearDeeper_getElem?, if_pos (le_refl i),
      List.getElem?_set_eq_of_lt _ hi]
  · intro k hik hk
    rw [selection_on_change_callback, clearDeeper_getElem?, if_neg (by omega),
      List.getElem?_set_ne (by omega), List.getElem?_eq_getElem hk]
    simp
  · intro k hki
    rw [selection_on_change_callback, clearDeeper_getElem?, if_pos (by omega),
      List.getElem?_set_ne (by omega)]

/-- C5: for every section string of the form "WxH" whose two parts parse as
positive numbers, the billet-mass estimator returns exactly
`(W * H * 482.0) / 10000`; for the empty string, a string without an `x`
separator, a string that does not split into exactly two parts, or parts that
are not valid numbers, it returns `none`. -/
theorem C5_billet_mass :
    (∀ (u v : List Char) (w h : ℚ),
      'x' ∉ u.map Char.toLower → 'x' ∉ v.map Char.toLower →
      pyFloat (u.map Char.toLower) = some w → pyFloat (v.map Char.toLower) = some h →
      0 < w → 0 < h →
      calculate_billet_weight_from_section ⟨u ++ 'x' :: v⟩ = some (w * h * 482 / 10000)) ∧
    calculate_billet_weight_from_section "" = none ∧
    (∀ s : String, 'x' ∉ s.data.map Char.toLower →
      calculate_billet_weight_from_section s = none) ∧
    (∀ s : String, (pySplit 'x' (s.data.map Char.toLower)).length ≠ 2 →
      calculate_billet_weight_from_section s = none) ∧
    (∀ (s : String) (a b : List Char), pySplit 'x' (s.data.map Char.toLower) = [a, b] →
      pyFloat a = none ∨ pyFloat b = none →
      calculate_billet_weight_from_section s = none) := by
  refine ⟨fun u v w h hu hv hw hh _ _ => billet_of_two_parts u v w h hu hv hw hh,
    rfl, ?_, ?_, ?_⟩
  · intro s hx
    simp only [calculate_billet_weight_from_section]
    rw [if_pos (Or.inr hx)]
  · intro s hlen
    by_cases h0 : s.data = [] ∨ 'x' ∉ s.data.map Char.toLower
    · simp only [calculate_billet_weight_from_section]
      rw [if_pos h0]
    · simp only [calculate_billet_weight_from_section]
      rw [if_neg h0]
      rw [if_pos hlen]
  · intro s a b hp hf
    by_cases h0 : s.data = [] ∨ 'x' ∉ s.data.map Char.toLower
    · simp only [calculate_billet_weight_from_section]
      rw [if_pos h0]
    · simp only [calculate_billet_weight_from_section]
      rw [if_neg h0]
      rw [hp]
      rw [if_neg (by simp)]
      rw [show ([a, b].getD 0 []) = a from rfl, show ([a, b].getD 1 []) = b from rfl]
      rcases hf with hf | hf
      · rw [hf]
      · cases hfa : pyFloat a with
        | none => rfl
        | some w => rw [hf]

/-- C5 witness: on the concrete section "100x100" the estimator returns
exactly 482 = (100 * 100 * 482) / 10000. -/
theorem C5_billet_mass_witness :
    calculate_billet_weight_from_section "100x100" = some 482 := by
  have h := C5_billet_mass.1 ['1', '0', '0'] ['1', '0', '0'] 100 100
    (by decide) (by decide) pyFloat_hundred pyFloat_hundred
    (by norm_num) (by norm_num)
  rw [show ("100x100" : String) = ⟨['1', '0', '0'] ++ 'x' :: ['1', '0', '0']⟩ from rfl, h]
  norm_num

/-- C10: the billet-mass estimator performs no positivity check: any two
parts that parse as numbers are accepted and scaled by the formula, so the
well-formed input "-50x100" yields the negative mass −241. -/
theorem C10_no_positivity_check :
    (∀ (u v : List Char) (w h : ℚ),
      'x' ∉ u.map Char.toLower → 'x' ∉ v.map Char.toLower →
      pyFloat (u.map Char.toLower) = some w → pyFloat (v.map Char.toLower) = some h →
      calculate_billet_weight_from_section ⟨u ++ 'x' :: v⟩ = some (w * h * 482 / 10000)) ∧
    calculate_billet_weight_from_section "-50x100" = some (-241) ∧ ((-241 : ℚ) < 0) := by
  refine ⟨fun u v w h hu hv hw hh => billet_of_two_parts u v w h hu hv hw hh, ?_, by norm_num⟩
  have h := billet_of_two_parts ['-', '5', '0'] ['1', '0', '0'] (-50) 100
    (by decide) (by decide) pyFloat_minus_fifty pyFloat_hundred
  rw [show ("-50x100" : String) = ⟨['-', '5', '0'] ++ 'x' :: ['1', '0', '0']⟩ from rfl, h]
  norm_num

/-- C9: a terminal path label splits on the "+" delimiter with surrounding
whitespace stripped, giving the primary description and the extra-flange
descriptions ("TypeA + TypeB" parses to primary "TypeA" and extras
["TypeB"]), and the normalized price key is a deterministic function of the
description, so the same description always yields the same key. -/
theorem C9_compound_label :
    (∀ a b : List Char, '+' ∉ a → '+' ∉ b →
      parse_compound_label ⟨a ++ '+' :: b⟩ =
        (⟨pyStrip a⟩, if pyStrip b = [] then [] else [(⟨pyStrip b⟩ : String)])) ∧
    parse_compound_label "TypeA + TypeB" = ("TypeA", ["TypeB"]) ∧
    price_key "TypeB" = "price_extra_TypeB" ∧
    (∀ d₁ d₂ : String, d₁ = d₂ → create_safe_key d₁ = create_safe_key d₂) := by
  refine ⟨?_, rfl, rfl, fun d₁ d₂ hd => hd ▸ rfl⟩
  intro a b ha hb
  simp only [parse_compound_label,
    show (String.mk (a ++ '+' :: b)).data = a ++ '+' :: b from rfl]
  rw [pySplit_append_sep '+' a b ha, pySplit_of_not_mem hb]
  rw [List.map_cons, List.map_cons, List.map_nil]
  by_cases hb0 : pyStrip b = [] <;> simp [hb0]

/-- C2 (bug evidence): the cutting-waste derivation is not total — on the
size token "1_0" (a fraction with denominator 0) the division raises an
uncaught `ZeroDivisionError` (the `except` clause catches only
`ValueError`/`IndexError`/`TypeError`), so instead of returning the claimed
0.2 kg default the calculation is aborted. -/
theorem C2_cutting_waste_uncaught_zero_division :
    get_cutting_waste_kg "1_0" = Except.error () := by
  have hp : parseSizeParts (pySplit '_' (pyStrip (removeInch "1_0".data))) =
      SizeParse.zeroDiv := by
    rw [show pySplit '_' (pyStrip (removeInch "1_0".data)) = [['1'], ['0']] from rfl]
    rw [parseSizeParts_pair ['1'] ['0'] 1 0 pyFloat_one pyFloat_zero]
    rw [if_pos rfl]
  simp only [get_cutting_waste_kg]
  rw [if_neg (by decide), hp]

/-- C6 counterexample: the unparseable token "5_0" (zero denominator) does
not return the 0.2 kg default the claim prescribes for unparseable tokens —
the code raises an uncaught `ZeroDivisionError` instead. -/
theorem C6_counterexample_zero_denominator :
    get_cutting_waste_kg "5_0" = Except.error () ∧
    get_cutting_waste_kg "5_0" ≠ Except.ok 0.2 := by
  have he : get_cutting_waste_kg "5_0" = Except.error () := by
    have hp : parseSizeParts (pySplit '_' (pyStrip (removeInch "5_0".data))) =
        SizeParse.zeroDiv := by
      rw [show pySplit '_' (pyStrip (removeInch "5_0".data)) = [['5'], ['0']] from rfl]
      rw [parseSizeParts_pair ['5'] ['0'] 5 0 pyFloat_five pyFloat_zero]
      rw [if_pos rfl]
    simp only [get_cutting_waste_kg]
    rw [if_neg (by decide), hp]
  exact ⟨he, by rw [he]; simp⟩

/-- C6 (amended): for a non-empty size token, the cutting waste is 0.2 kg
when the parsed inch value x satisfies x ≤ 4 or when parsing fails with a
caught error (defaulting the value to 0), 0.5 kg when 4 < x ≤ 8, and 1.0 kg
when x > 8; a fraction or mixed-number token whose denominator parses as 0,
however, raises an uncaught `ZeroDivisionError` and returns no band at all. -/
theorem C6_cutting_waste_bands (s : String) (x : ℚ) (hs : s ≠ "") :
    (parseSizeParts (pySplit '_' (pyStrip (removeInch s.data))) = SizeParse.val x →
      get_cutting_waste_kg s =
        Except.ok (if x ≤ 4 then 0.2 else if x ≤ 8 then 0.5 else 1.0)) ∧
    (parseSizeParts (pySplit '_' (pyStrip (removeInch s.data))) = SizeParse.caught →
      get_cutting_waste_kg s = Except.ok 0.2) ∧
    (parseSizeParts (pySplit '_' (pyStrip (removeInch s.data))) = SizeParse.zeroDiv →
      get_cutting_waste_kg s = Except.error ()) := by
  refine ⟨?_, ?_, ?_⟩ <;> intro hp <;> simp only [get_cutting_waste_kg] <;>
    rw [if_neg hs, hp]
  · show Except.ok (wasteBand x) = _
    congr 1
    unfold wasteBand
    split_ifs <;> first | rfl | linarith
  · show Except.ok (wasteBand 0) = _
    norm_num [wasteBand]

/-- C6 witness: the token "24" parses to 24 > 8 and gets the 1.0 kg band. -/
theorem C6_cutting_waste_bands_witness :
    get_cutting_waste_kg "24" = Except.ok 1.0 := by
  have h := (C6_cutting_waste_bands "24" 24 (by decide)).1 parseSizeParts_token_24
  rw [h]
  norm_num

/-- C9 witness: the concrete label "A + B" parses to primary "A" and the
single extra description "B". -/
theorem C9_compound_label_witness :
    parse_compound_label "A + B" = ("A", ["B"]) := by
  have h := C9_compound_label.1 ['A', ' '] [' ', 'B'] (by decide) (by decide)
  rw [show ("A + B" : String) = ⟨['A', ' '] ++ '+' :: [' ', 'B']⟩ from rfl, h]
  rfl

/-- C3 counterexample: a mapping holding both the FW and the CW key with
non-numeric (string) values is recognized as a costable leaf by the code,
although neither key holds a numeric value. -/
theorem C3_counterexample_nonnumeric_values :
    is_costable_leaf (JsonVal.obj [("FW", JsonVal.str "a"), ("CW", JsonVal.str "b")]) = true ∧
    hasNumericKey (JsonVal.obj [("FW", JsonVal.str "a"), ("CW", JsonVal.str "b")]) "FW" = false ∧
    hasNumericKey (JsonVal.obj [("FW", JsonVal.str "a"), ("CW", JsonVal.str "b")]) "CW" = false :=
  ⟨rfl, rfl, rfl⟩

/-- C3 (amended): a node is recognized as a costable leaf iff it is a mapping
containing both the FW and the CW key — the values under the keys are not
inspected at recognition time — and a selection path resolves to a leaf
record iff it is non-empty, resolves through the catalog, and the resolved
node passes exactly that key-presence check. -/
theorem C3_leaf_recognition :
    (∀ fields : List (String × JsonVal),
      is_costable_leaf (JsonVal.obj fields) = (hasKey fields "FW" && hasKey fields "CW")) ∧
    (∀ q, is_costable_leaf (JsonVal.num q) = false) ∧
    (∀ s, is_costable_leaf (JsonVal.str s) = false) ∧
    (∀ b, is_costable_leaf (JsonVal.bool b) = false) ∧
    is_costable_leaf JsonVal.null = false ∧
    (∀ xs, is_costable_leaf (JsonVal.arr xs) = false) ∧
    (∀ (db : JsonVal) (path : List String) (v : JsonVal),
      selected_flange_data db path = some v ↔
        path ≠ [] ∧ get_nested_value db path = some v ∧ is_costable_leaf v = true) := by
  refine ⟨fun _ => rfl, fun _ => rfl, fun _ => rfl, fun _ => rfl, rfl, fun _ => rfl, ?_⟩
  intro db path v
  cases path with
  | nil => simp [selected_flange_data]
  | cons p ps =>
    simp only [selected_flange_data]
    cases h : get_nested_value db (p :: ps) with
    | none =>
      show (none : Option JsonVal) = some v ↔ _
      simp
    | some w =>
      show (if is_costable_leaf w = true then some w else none) = some v ↔ _
      by_cases hw : is_costable_leaf w = true
      · rw [if_pos hw]
        constructor
        · intro e
          injection e with e
          subst e
          exact ⟨List.cons_ne_nil p ps, rfl, hw⟩
        · rintro ⟨-, e, -⟩
          injection e with e
          rw [e]
      · rw [if_neg hw]
        constructor
        · intro e
          exact absurd e (by simp)
        · rintro ⟨-, e, hv⟩
          injection e with e
          subst e
          exact absurd hv hw

/-- C4 witness: at the concrete state ["a","b","c","d"], changing depth 1 to
"z" puts "z" at depth 1, clears depths 2 and 3, and keeps depth 0. -/
theorem C4_selection_change_witness :
    (selection_on_change_callback ["a", "b", "c", "d"] 1 "z")[1]? = some "z" ∧
    (selection_on_change_callback ["a", "b", "c", "d"] 1 "z")[3]? = some "" ∧
    (selection_on_change_callback ["a", "b", "c", "d"] 1 "z")[0]? = some "a" :=
  ⟨(C4_selection_change_clears_deeper ["a", "b", "c", "d"] 1 "z" (by decide)).1,
   (C4_selection_change_clears_deeper ["a", "b", "c", "d"] 1 "z" (by decide)).2.1 3
     (by decide) (by decide),
   (C4_selection_change_clears_deeper ["a", "b", "c", "d"] 1 "z" (by decide)).2.2 0
     (by decide)⟩

end FlangeCalc
